import Mathlib

/-!
Shallow embedding of the `user-info` Go microservice (preferences, sessions,
saved searches and bags resources over a relational store), together with
proofs about the claims of its specification.

Modelling conventions:
* JSON payloads and request bodies are Go strings; we partition that string
  space by the outcome of `json.Unmarshal`: empty, malformed (carrying the
  parse error message Go would report), or the serialization of a JSON value.
* Database ids (`users.id`, `bags.id`, record ids) are opaque identifiers
  generated by the database; we model them as `Nat`.
* The database is modelled as an explicit relational state (`DBState`); each
  SQL statement of the source is translated to its relational meaning on that
  state.  A query that the database would reject (invalid SQL text) is
  translated to the error the database returns at run time.
* `http.ResponseWriter` is modelled by `RespWriter`: the status code is set by the
  first `WriteHeader`/`Write` and later attempts are ignored, and every write
  appends a body chunk, exactly as in `net/http`.
* Go panics (failed type assertions) are modelled by the `GoResult.panicked`
  outcome.
-/

/-- A JSON value, as produced by Go `encoding/json` for
`map[string]interface\x7b\x7d` / `interface\x7b\x7d` targets.  Numbers are
restricted to integers: every numeric literal appearing in the spec and the
claims is an integer, and floating point is outside the model. -/
inductive JValue where
  | null
  | bool (b : Bool)
  | num (n : Int)
  | str (s : String)
  | arr (elems : List JValue)
  | obj (fields : List (String × JValue))

/-- A Go string holding a (possibly empty, possibly malformed) JSON document,
partitioned by the outcome of parsing it.  `malformed msg` carries the parse
error message that `json.Unmarshal` reports for that string. -/
inductive JsonText where
  | empty
  | malformed (msg : String)
  | valid (v : JValue)

/-- Lookup of a key in a JSON object (Go map indexing `values[key]`). -/
def lookupKey (fields : List (String × JValue)) (key : String) : Option JValue :=
  (fields.find? (fun p => p.1 == key)).map (fun p => p.2)

/-- Go `json.Unmarshal(data, &m)` for `m : map[string]interface\x7b\x7d`:
fails on empty input and on malformed JSON (with the parse error message),
fails on valid JSON that is not an object (and not `null`), succeeds on an
object; JSON `null` leaves the map `nil`, which behaves as an empty map. -/
def unmarshalMap : JsonText → Except String (List (String × JValue))
  | .empty => .error "unexpected end of JSON input"
  | .malformed msg => .error msg
  | .valid (.obj fields) => .ok fields
  | .valid .null => .ok []
  | .valid _ =>
      .error "json: cannot unmarshal value into Go value of type map[string]interface \x7b\x7d"

/-- Go `json.Unmarshal(data, &v)` for `v : interface\x7b\x7d`: succeeds on any
valid JSON document, fails on empty and malformed input. -/
def unmarshalAny : JsonText → Except String JValue
  | .empty => .error "unexpected end of JSON input"
  | .malformed msg => .error msg
  | .valid v => .ok v

/-- One chunk of an HTTP response body.  Plain text (from `http.Error`),
marshalled JSON values, raw stored payload text echoed verbatim, and the
marshalled forms of the bag-specific response shapes are kept distinct, since
the source produces them through different code paths. -/
inductive RBody where
  | text (msg : String)
  | jsonVal (v : JValue)
  | raw (t : JsonText)
  | bagJson (id : Nat) (contents : List (String × JValue)) (userID : Nat)
  | bagsJson (bs : List (Nat × List (String × JValue) × Nat))
  | idJson (id : Nat)

/-- Model of `http.ResponseWriter`: the status is committed by the first
`WriteHeader` or `Write` (later calls cannot change it), and body writes
append. -/
structure RespWriter where
  status : Option Nat
  chunks : List RBody

def RespWriter.empty : RespWriter := ⟨none, []⟩

/-- Go `WriteHeader`: commits the status code once; ignored if already set. -/
def RespWriter.writeHeader (w : RespWriter) (code : Nat) : RespWriter :=
  match w.status with
  | some _ => w
  | none => { w with status := some code }

/-- Go `Write`: commits status 200 if no header was written yet, then appends. -/
def RespWriter.write (w : RespWriter) (b : RBody) : RespWriter :=
  { status := some (w.status.getD 200), chunks := w.chunks ++ [b] }

/-- Go `http.Error(w, msg, code)`: sets the status (if not yet set) and writes
the message as plain text. -/
def httpError (w : RespWriter) (msg : String) (code : Nat) : RespWriter :=
  (w.writeHeader code).write (.text msg)

/-- Go `badRequest` from the source: `http.Error` with status 400. -/
def badRequest (w : RespWriter) (msg : String) : RespWriter := httpError w msg 400

/-- Go `errored` from the source: `http.Error` with status 500. -/
def errored (w : RespWriter) (msg : String) : RespWriter := httpError w msg 500

/-- Go `notFound` from the source: `http.Error` with status 404. -/
def notFound (w : RespWriter) (msg : String) : RespWriter := httpError w msg 404

/-- Go `handleNonUser`: marshals `\x7b"user": username\x7d` and sends it through
`notFound`.  The body chunk is the marshalled JSON object. -/
def handleNonUser (w : RespWriter) (username : String) : RespWriter :=
  (w.writeHeader 404).write (.jsonVal (.obj [("user", .str username)]))

/-- Outcome of running a piece of Go code that may panic (failed type
assertion). -/
inductive GoResult (α : Type) where
  | ok (a : α)
  | panicked

/-- A row of the `user_preferences` table. -/
structure PrefRow where
  id : Nat
  user_id : Nat
  preferences : JsonText

/-- A row of the `user_sessions` table. -/
structure SessionRow where
  id : Nat
  user_id : Nat
  session : JsonText

/-- A row of the `user_saved_searches` table. -/
structure SearchRow where
  id : Nat
  user_id : Nat
  saved_searches : JsonText

/-- A row of the `bags` table. -/
structure BagRow where
  id : Nat
  user_id : Nat
  contents : JsonText

/-- A row of the `default_bags` table (user_id, bag_id). -/
structure DefaultBagRow where
  user_id : Nat
  bag_id : Nat

/-- The relational database backing all four resource types.  `nextID` feeds
the id generator for newly inserted rows. -/
structure DBState where
  users : List (String × Nat)
  user_preferences : List PrefRow
  user_sessions : List SessionRow
  user_saved_searches : List SearchRow
  bags : List BagRow
  default_bags : List DefaultBagRow
  nextID : Nat

/-- Modelled from its use in the source: `queries.IsUser(db, username)`
checks whether the username resolves to a row of the `users` table. -/
def queries.IsUser (s : DBState) (username : String) : Bool :=
  s.users.any (fun r => r.1 == username)

/-- Modelled from its use in the source: `queries.UserID(db, username)`
returns the user id for the username, or the no-rows error of the database when
the username does not resolve. -/
def queries.UserID (s : DBState) (username : String) : Except String Nat :=
  match s.users.find? (fun r => r.1 == username) with
  | some r => .ok r.2
  | none => .error "sql: no rows in result set"

/-- The join `... FROM t, users u WHERE t.user_id = u.id AND u.username = $1`
used by every per-resource query: a row with owner id `uid` joins to the
given username iff some `users` row carries that username with id `uid`. -/
def joinUser (users : List (String × Nat)) (username : String) (uid : Nat) : Bool :=
  users.any (fun r => uid == r.2 && r.1 == username)

-- -------- PREFERENCES --------

/-- Go `UserPreferencesRecord` from the source (field order ID, Preferences,
UserID). -/
structure UserPreferencesRecord where
  ID : Nat
  Preferences : JsonText
  UserID : Nat

/-- The zero value of `UserPreferencesRecord` (`var retval ...`): empty
payload, zero ids. -/
def UserPreferencesRecord.zero : UserPreferencesRecord := ⟨0, .empty, 0⟩

/-- Outcome of the envelope converters: a converted map, an error, or a Go
panic from the unchecked type assertion in the unwrap branch. -/
inductive ConvertResult where
  | ok (fields : List (String × JValue))
  | err (msg : String)
  | panicked

/-- Go `convertPrefs` from the source: parse the stored payload (skipped when it
is the empty string, leaving the nil map), then unwrap the value stored under
`"preferences"` when `wrap` is false (via an unchecked type assertion), or
wrap the whole map under `"preferences"` when `wrap` is true and the key is
absent. -/
def convertPrefs (record : UserPreferencesRecord) (wrap : Bool) : ConvertResult :=
  let parsed : Except String (List (String × JValue)) :=
    match record.Preferences with
    | .empty => .ok []
    | t => unmarshalMap t
  match parsed with
  | .error e => .err e
  | .ok values =>
    if !wrap then
      match lookupKey values "preferences" with
      | some (.obj fields) => .ok fields
      | some _ => .panicked
      | none => .ok values
    else
      match lookupKey values "preferences" with
      | none => .ok [("preferences", JValue.obj values)]
      | some _ => .ok values

/-- Go `PrefsDB.isUser`. -/
def PrefsDB.isUser (s : DBState) (username : String) : Bool :=
  queries.IsUser s username

/-- Go `PrefsDB.hasPreferences`: `SELECT COUNT(p.*) FROM user_preferences p,
users u WHERE p.user_id = u.id AND u.username = $1`, compared with 0. -/
def PrefsDB.hasPreferences (s : DBState) (username : String) : Bool :=
  decide (0 < (s.user_preferences.filter (fun p => joinUser s.users username p.user_id)).length)

/-- Go `PrefsDB.getPreferences`: the joined rows, in table order. -/
def PrefsDB.getPreferences (s : DBState) (username : String) : List UserPreferencesRecord :=
  (s.user_preferences.filter (fun p => joinUser s.users username p.user_id)).map
    (fun p => ⟨p.id, p.preferences, p.user_id⟩)

/-- Go `PrefsDB.insertPreferences`: resolves the username (propagating the
lookup error) and inserts a new row owned by the resolved id. -/
def PrefsDB.insertPreferences (s : DBState) (username : String) (prefs : JsonText) :
    Except String DBState :=
  match queries.UserID s username with
  | .error e => .error e
  | .ok uid =>
      .ok { s with
        user_preferences := s.user_preferences ++ [⟨s.nextID, uid, prefs⟩],
        nextID := s.nextID + 1 }

/-- Go `PrefsDB.updatePreferences`: resolves the username (propagating the
lookup error) and updates every row owned by the resolved id. -/
def PrefsDB.updatePreferences (s : DBState) (username : String) (prefs : JsonText) :
    Except String DBState :=
  match queries.UserID s username with
  | .error e => .error e
  | .ok uid =>
      .ok { s with
        user_preferences := s.user_preferences.map
          (fun p => if p.user_id == uid then ⟨p.id, p.user_id, prefs⟩ else p) }

/-- Go `PrefsDB.deletePreferences`: resolves the username (propagating the
lookup error) and deletes every row owned by the resolved id. -/
def PrefsDB.deletePreferences (s : DBState) (username : String) :
    Except String DBState :=
  match queries.UserID s username with
  | .error e => .error e
  | .ok uid =>
      .ok { s with
        user_preferences := s.user_preferences.filter (fun p => p.user_id != uid) }

/-- Go `getUserPreferencesForRequest`: fetch the rows, take the first (or the
zero record), convert with the given wrap flag, and marshal (an empty
converted map becomes the literal empty JSON object). -/
def getUserPreferencesForRequest (s : DBState) (username : String) (wrap : Bool) :
    GoResult (Except String RBody) :=
  let prefs := PrefsDB.getPreferences s username
  let retval : UserPreferencesRecord :=
    match prefs with
    | [] => UserPreferencesRecord.zero
    | r :: _ => r
  match convertPrefs retval wrap with
  | .panicked => .panicked
  | .err e =>
      .ok (.error ("Error generating response for username " ++ username ++ ": " ++ e))
  | .ok response =>
      if 0 < response.length then .ok (.ok (RBody.jsonVal (.obj response)))
      else .ok (.ok (RBody.jsonVal (.obj [])))

/-- Go `UserPreferencesApp.GetRequest`.  On a conversion error the handler calls
`errored` without returning, then executes `writer.Write(jsoned)` with a nil
slice, which writes nothing. -/
def UserPreferencesApp.GetRequest (s : DBState) (varsUsername : Option String)
    (w : RespWriter) : GoResult RespWriter :=
  match varsUsername with
  | none => .ok (badRequest w "Missing username in URL")
  | some username =>
    if !(PrefsDB.isUser s username) then .ok (handleNonUser w username)
    else
      match getUserPreferencesForRequest s username false with
      | .panicked => .panicked
      | .ok (.error e) => .ok (errored w e)
      | .ok (.ok body) => .ok (w.write body)

/-- Go `UserPreferencesApp.PostRequest` (also `PutRequest`, which delegates to
it): validate the user, check for an existing record, parse the body (500 on
parse failure), insert or update the raw body text, then respond with the
wrapped form. -/
def UserPreferencesApp.PostRequest (s : DBState) (varsUsername : Option String)
    (body : JsonText) (w : RespWriter) : GoResult (RespWriter × DBState) :=
  match varsUsername with
  | none => .ok (badRequest w "Missing username in URL", s)
  | some username =>
    if !(PrefsDB.isUser s username) then .ok (handleNonUser w username, s)
    else
      let hasPrefs := PrefsDB.hasPreferences s username
      match unmarshalMap body with
      | .error e => .ok (errored w ("Error parsing request body: " ++ e), s)
      | .ok _checked =>
        let upserted : Except String DBState :=
          if !hasPrefs then PrefsDB.insertPreferences s username body
          else PrefsDB.updatePreferences s username body
        match upserted with
        | .error e =>
            .ok (errored w ((if !hasPrefs then "Error inserting preferences for user "
                             else "Error updating preferences for user ")
                            ++ username ++ ": " ++ e), s)
        | .ok s2 =>
          match getUserPreferencesForRequest s2 username true with
          | .panicked => .panicked
          | .ok (.error e) => .ok (errored w e, s2)
          | .ok (.ok respBody) => .ok (w.write respBody, s2)

/-- Go `UserPreferencesApp.PutRequest` is an alias for `PostRequest`. -/
def UserPreferencesApp.PutRequest (s : DBState) (varsUsername : Option String)
    (body : JsonText) (w : RespWriter) : GoResult (RespWriter × DBState) :=
  UserPreferencesApp.PostRequest s varsUsername body w

-- -------- SESSIONS --------

/-- Go `UserSessionRecord` from the source (field order ID, Session, UserID). -/
structure UserSessionRecord where
  ID : Nat
  Session : JsonText
  UserID : Nat

/-- The zero value of `UserSessionRecord`. -/
def UserSessionRecord.zero : UserSessionRecord := ⟨0, .empty, 0⟩

/-- Go `convertSessions` from the source: identical to `convertPrefs` with the
envelope key `"session"`, including the unchecked type assertion in the
unwrap branch. -/
def convertSessions (record : UserSessionRecord) (wrap : Bool) : ConvertResult :=
  let parsed : Except String (List (String × JValue)) :=
    match record.Session with
    | .empty => .ok []
    | t => unmarshalMap t
  match parsed with
  | .error e => .err e
  | .ok values =>
    if !wrap then
      match lookupKey values "session" with
      | some (.obj fields) => .ok fields
      | some _ => .panicked
      | none => .ok values
    else
      match lookupKey values "session" with
      | none => .ok [("session", JValue.obj values)]
      | some _ => .ok values

/-- Go `SessionsDB.isUser`. -/
def SessionsDB.isUser (s : DBState) (username : String) : Bool :=
  queries.IsUser s username

/-- Go `SessionsDB.hasSessions`: join count compared with 0. -/
def SessionsDB.hasSessions (s : DBState) (username : String) : Bool :=
  decide (0 < (s.user_sessions.filter (fun r => joinUser s.users username r.user_id)).length)

/-- Go `SessionsDB.getSessions`: the joined rows, in table order. -/
def SessionsDB.getSessions (s : DBState) (username : String) : List UserSessionRecord :=
  (s.user_sessions.filter (fun r => joinUser s.users username r.user_id)).map
    (fun r => ⟨r.id, r.session, r.user_id⟩)

/-- Go `SessionsDB.insertSession`: resolves the username (propagating the lookup
error) and inserts a new row. -/
def SessionsDB.insertSession (s : DBState) (username : String) (session : JsonText) :
    Except String DBState :=
  match queries.UserID s username with
  | .error e => .error e
  | .ok uid =>
      .ok { s with
        user_sessions := s.user_sessions ++ [⟨s.nextID, uid, session⟩],
        nextID := s.nextID + 1 }

/-- Go `SessionsDB.updateSession`: resolves the username (propagating the lookup
error) and updates every row owned by the resolved id. -/
def SessionsDB.updateSession (s : DBState) (username : String) (session : JsonText) :
    Except String DBState :=
  match queries.UserID s username with
  | .error e => .error e
  | .ok uid =>
      .ok { s with
        user_sessions := s.user_sessions.map
          (fun r => if r.user_id == uid then ⟨r.id, r.user_id, session⟩ else r) }

/-- Go `SessionsDB.deleteSession`: resolves the username (propagating the lookup
error) and deletes every row owned by the resolved id. -/
def SessionsDB.deleteSession (s : DBState) (username : String) :
    Except String DBState :=
  match queries.UserID s username with
  | .error e => .error e
  | .ok uid =>
      .ok { s with
        user_sessions := s.user_sessions.filter (fun r => r.user_id != uid) }

/-- Go `getUserSessionForRequest`: fetch the rows, take the first (or the zero
record), convert, marshal. -/
def getUserSessionForRequest (s : DBState) (username : String) (wrap : Bool) :
    GoResult (Except String RBody) :=
  let sessions := SessionsDB.getSessions s username
  let retval : UserSessionRecord :=
    match sessions with
    | [] => UserSessionRecord.zero
    | r :: _ => r
  match convertSessions retval wrap with
  | .panicked => .panicked
  | .err e =>
      .ok (.error ("Error generating response for username " ++ username ++ ": " ++ e))
  | .ok response =>
      if 0 < response.length then .ok (.ok (RBody.jsonVal (.obj response)))
      else .ok (.ok (RBody.jsonVal (.obj [])))

/-- Go `UserSessionsApp.GetRequest`.  Unlike the preferences and searches GET
handlers, a username that does not resolve is answered through `badRequest`
(status 400 with a plain-text message), not `handleNonUser`. -/
def UserSessionsApp.GetRequest (s : DBState) (varsUsername : Option String)
    (w : RespWriter) : GoResult RespWriter :=
  match varsUsername with
  | none => .ok (badRequest w "Missing username in URL")
  | some username =>
    if !(SessionsDB.isUser s username) then
      .ok (badRequest w ("User " ++ username ++ " does not exist"))
    else
      match getUserSessionForRequest s username false with
      | .panicked => .panicked
      | .ok (.error e) => .ok (errored w e)
      | .ok (.ok body) => .ok (w.write body)

/-- Go `UserSessionsApp.PostRequest` (also `PutRequest`): same lifecycle as the
preferences handler; a body that fails to parse is answered with status 500. -/
def UserSessionsApp.PostRequest (s : DBState) (varsUsername : Option String)
    (body : JsonText) (w : RespWriter) : GoResult (RespWriter × DBState) :=
  match varsUsername with
  | none => .ok (badRequest w "Missing username in URL", s)
  | some username =>
    if !(SessionsDB.isUser s username) then
      .ok (badRequest w ("User " ++ username ++ " does not exist"), s)
    else
      let hasSession := SessionsDB.hasSessions s username
      match unmarshalMap body with
      | .error e => .ok (errored w ("Error parsing request body: " ++ e), s)
      | .ok _checked =>
        let upserted : Except String DBState :=
          if !hasSession then SessionsDB.insertSession s username body
          else SessionsDB.updateSession s username body
        match upserted with
        | .error e =>
            .ok (errored w ((if !hasSession then "Error inserting session for user "
                             else "Error updating session for user ")
                            ++ username ++ ": " ++ e), s)
        | .ok s2 =>
          match getUserSessionForRequest s2 username true with
          | .panicked => .panicked
          | .ok (.error e) => .ok (errored w e, s2)
          | .ok (.ok respBody) => .ok (w.write respBody, s2)

-- -------- SEARCHES --------

/-- Go `SearchesDB.isUser`. -/
def SearchesDB.isUser (s : DBState) (username : String) : Bool :=
  queries.IsUser s username

/-- Go `SearchesDB.hasSavedSearches`: `SELECT EXISTS(...)` over the join. -/
def SearchesDB.hasSavedSearches (s : DBState) (username : String) : Bool :=
  s.user_saved_searches.any (fun r => joinUser s.users username r.user_id)

/-- Go `SearchesDB.getSavedSearches`: the raw payload text of the joined rows, in
table order (`[]string` in the source). -/
def SearchesDB.getSavedSearches (s : DBState) (username : String) : List JsonText :=
  (s.user_saved_searches.filter (fun r => joinUser s.users username r.user_id)).map
    (fun r => r.saved_searches)

/-- Go `SearchesDB.insertSavedSearches`: resolves the username (propagating the
lookup error) and inserts a new row. -/
def SearchesDB.insertSavedSearches (s : DBState) (username : String) (searches : JsonText) :
    Except String DBState :=
  match queries.UserID s username with
  | .error e => .error e
  | .ok uid =>
      .ok { s with
        user_saved_searches := s.user_saved_searches ++ [⟨s.nextID, uid, searches⟩],
        nextID := s.nextID + 1 }

/-- Go `SearchesDB.updateSavedSearches`: resolves the username (propagating the
lookup error) and updates every row owned by the resolved id. -/
def SearchesDB.updateSavedSearches (s : DBState) (username : String) (searches : JsonText) :
    Except String DBState :=
  match queries.UserID s username with
  | .error e => .error e
  | .ok uid =>
      .ok { s with
        user_saved_searches := s.user_saved_searches.map
          (fun r => if r.user_id == uid then ⟨r.id, r.user_id, searches⟩ else r) }

/-- Go `SearchesDB.deleteSavedSearches`: when the username lookup fails the
source executes `return nil`, discarding the lookup error and reporting
success without touching the table; otherwise it deletes the rows owned by
the resolved id. -/
def SearchesDB.deleteSavedSearches (s : DBState) (username : String) :
    Except String DBState :=
  match queries.UserID s username with
  | .error _ => .ok s
  | .ok uid =>
      .ok { s with
        user_saved_searches := s.user_saved_searches.filter (fun r => r.user_id != uid) }

/-- Go `SavedSearchesApp.GetRequest`: non-users get `handleNonUser`; with no
stored searches the literal empty JSON object is written; otherwise the first
stored payload text is echoed verbatim. -/
def SavedSearchesApp.GetRequest (s : DBState) (varsUsername : Option String)
    (w : RespWriter) : RespWriter :=
  match varsUsername with
  | none => badRequest w "Missing username in URL"
  | some username =>
    if !(SearchesDB.isUser s username) then handleNonUser w username
    else
      let searches := SearchesDB.getSavedSearches s username
      match searches with
      | [] => w.write (RBody.jsonVal (.obj []))
      | t :: _ => w.write (RBody.raw t)

/-- Go `SavedSearchesApp.PostRequest` (also `PutRequest`): the body is parsed
before the user check, and a parse failure is answered through `badRequest`
(status 400), unlike the preferences/sessions handlers. -/
def SavedSearchesApp.PostRequest (s : DBState) (varsUsername : Option String)
    (body : JsonText) (w : RespWriter) : RespWriter × DBState :=
  match varsUsername with
  | none => (badRequest w "Missing username in URL", s)
  | some username =>
    match unmarshalAny body with
    | .error e => (badRequest w ("Error parsing body: " ++ e), s)
    | .ok parsedBody =>
      if !(SearchesDB.isUser s username) then (handleNonUser w username, s)
      else
        let hasSearches := SearchesDB.hasSavedSearches s username
        let upserted : Except String DBState :=
          if hasSearches then SearchesDB.updateSavedSearches s username body
          else SearchesDB.insertSavedSearches s username body
        match upserted with
        | .error e => (errored w e, s)
        | .ok s2 =>
            (w.write (RBody.jsonVal (.obj [("saved_searches", parsedBody)])), s2)

/-- Go `SavedSearchesApp.DeleteRequest`: silently succeeds for a non-user (no
body, default status), otherwise delegates to `deleteSavedSearches`. -/
def SavedSearchesApp.DeleteRequest (s : DBState) (varsUsername : Option String)
    (w : RespWriter) : RespWriter × DBState :=
  match varsUsername with
  | none => (badRequest w "Missing username in URL", s)
  | some username =>
    if !(SearchesDB.isUser s username) then (w, s)
    else
      match SearchesDB.deleteSavedSearches s username with
      | .error e => (errored w e, s)
      | .ok s2 => (w, s2)

-- -------- BAGS --------

/-- Go `IplantSuffix` from the source. -/
def IplantSuffix : String := "@iplantcollaborative.org"

/-- Go `strings.HasSuffix(s, suffix)` from the Go standard library. -/
def strings.HasSuffix (s suffix : String) : Bool :=
  suffix.data.isSuffixOf s.data

/-- Go `(b *BagsApp) AddUsernameSuffix`: appends `@iplantcollaborative.org` when
the username does not already end with it. -/
def AddUsernameSuffix (username : String) : String :=
  if !(strings.HasSuffix username IplantSuffix) then username ++ IplantSuffix
  else username

/-- Go `BagRecord` from the source: bag id, contents (a JSON object decoded by
`BagContents.Scan`), owning user id. -/
structure BagRecord where
  ID : Nat
  Contents : List (String × JValue)
  UserID : Nat

/-- Go `json.Unmarshal(body, &bag)` for `bag : BagRecord`: fails on empty or
malformed input and on valid JSON that is not an object; on an object the
known fields must have compatible types (`id`/`user_id` strings, `contents`
an object), unknown fields are ignored. -/
def unmarshalBagRecord : JsonText → Except String Unit
  | .empty => .error "unexpected end of JSON input"
  | .malformed msg => .error msg
  | .valid .null => .ok ()
  | .valid (.obj fields) =>
      let idOk := match lookupKey fields "id" with
        | none => true
        | some (.str _) => true
        | some _ => false
      let userOk := match lookupKey fields "user_id" with
        | none => true
        | some (.str _) => true
        | some _ => false
      let contentsOk := match lookupKey fields "contents" with
        | none => true
        | some (.obj _) => true
        | some .null => true
        | some _ => false
      if idOk && userOk && contentsOk then .ok ()
      else .error "json: cannot unmarshal value into Go value of type main.BagRecord"
  | .valid _ =>
      .error "json: cannot unmarshal value into Go value of type main.BagRecord"

/-- Go `BagsAPI.GetUserID`: `SELECT users.id FROM users WHERE users.username =
$1`, erring with the no-rows error when the username does not resolve. -/
def BagsAPI.GetUserID (s : DBState) (username : String) : Except String Nat :=
  match s.users.find? (fun r => r.1 == username) with
  | some r => .ok r.2
  | none => .error "sql: no rows in result set"

/-- Go `BagsAPI.HasBags`: join count compared with 0. -/
def BagsAPI.HasBags (s : DBState) (username : String) : Except String Bool :=
  .ok (decide (0 < (s.bags.filter (fun b => joinUser s.users username b.user_id)).length))

/-- The error the database reports for the `HasDefaultBag` query: its FROM
clause reads `FROM default_bags d` followed by `users u` with no comma (every
sibling query has the comma), so the statement is not valid SQL and the scan
always fails with the syntax error of the database. -/
def hasDefaultBagQueryError : String := "pq: syntax error at or near \"users\""

/-- Go `BagsAPI.HasDefaultBag`: the query text is malformed (missing comma
between `default_bags d` and `users u` in the FROM clause), so every call
returns the syntax error of the database; the count is never produced. -/
def BagsAPI.HasDefaultBag (_s : DBState) (_username : String) : Except String Bool :=
  .error hasDefaultBagQueryError

/-- Go `BagsAPI.HasBag`: join count, additionally filtered by the bag id. -/
def BagsAPI.HasBag (s : DBState) (username : String) (bagID : Nat) : Except String Bool :=
  .ok (decide (0 <
    (s.bags.filter (fun b => joinUser s.users username b.user_id && b.id == bagID)).length))

/-- Go `BagContents.Scan` applied to each fetched row: decode the stored
contents text, aborting on the first failure. -/
def scanBagRows : List BagRow → Except String (List BagRecord)
  | [] => .ok []
  | r :: rest =>
    match unmarshalMap r.contents with
    | .error e => .error e
    | .ok c =>
      match scanBagRows rest with
      | .error e => .error e
      | .ok bs => .ok (⟨r.id, c, r.user_id⟩ :: bs)

/-- Go `BagsAPI.GetBags`: all joined rows for the user, decoded. -/
def BagsAPI.GetBags (s : DBState) (username : String) : Except String (List BagRecord) :=
  scanBagRows (s.bags.filter (fun b => joinUser s.users username b.user_id))

/-- Go `BagsAPI.GetBag`: the joined row with the given bag id (no-rows error
when absent), decoded. -/
def BagsAPI.GetBag (s : DBState) (username : String) (bagID : Nat) : Except String BagRecord :=
  match s.bags.filter (fun b => joinUser s.users username b.user_id && b.id == bagID) with
  | [] => .error "sql: no rows in result set"
  | r :: _ =>
    match unmarshalMap r.contents with
    | .error e => .error e
    | .ok c => .ok ⟨r.id, c, r.user_id⟩

/-- Go `BagsAPI.AddBag`: resolves the username (propagating the lookup error),
inserts a new `bags` row and returns the database-generated id. -/
def BagsAPI.AddBag (s : DBState) (username : String) (contents : JsonText) :
    Except String (Nat × DBState) :=
  match queries.UserID s username with
  | .error e => .error e
  | .ok uid =>
      .ok (s.nextID,
        { s with bags := s.bags ++ [⟨s.nextID, uid, contents⟩], nextID := s.nextID + 1 })

/-- Go `BagsAPI.UpdateBag`: `UPDATE ONLY bags SET contents = $1 WHERE id = $2
and user_id = $3`. -/
def BagsAPI.UpdateBag (s : DBState) (username : String) (bagID : Nat) (contents : JsonText) :
    Except String DBState :=
  match queries.UserID s username with
  | .error e => .error e
  | .ok uid =>
      let updated := s.bags.map
        (fun b => if b.id == bagID && b.user_id == uid then ⟨b.id, b.user_id, contents⟩ else b)
      .ok { s with bags := updated }

/-- Go `BagsAPI.DeleteBag`: `DELETE FROM ONLY bags WHERE id = $1 and user_id =
$2`.  Only the `bags` row is removed; the `default_bags` table is not
touched. -/
def BagsAPI.DeleteBag (s : DBState) (username : String) (bagID : Nat) :
    Except String DBState :=
  match queries.UserID s username with
  | .error e => .error e
  | .ok uid =>
      .ok { s with bags := s.bags.filter (fun b => !(b.id == bagID && b.user_id == uid)) }

/-- Go `BagsAPI.SetDefaultBag`: `INSERT INTO default_bags VALUES ($1, $2) ON
CONFLICT (user_id) DO UPDATE SET bag_id = $2` — an upsert keyed on the user
id, so at most one marker row per user is ever produced. -/
def BagsAPI.SetDefaultBag (s : DBState) (username : String) (bagID : Nat) :
    Except String DBState :=
  match BagsAPI.GetUserID s username with
  | .error e => .error e
  | .ok uid =>
      if s.default_bags.any (fun d => d.user_id == uid) then
        let updated := s.default_bags.map
          (fun d => if d.user_id == uid then ⟨d.user_id, bagID⟩ else d)
        .ok { s with default_bags := updated }
      else
        .ok { s with default_bags := s.default_bags ++ [⟨uid, bagID⟩] }

/-- Go `BagsAPI.createDefaultBag`: add a bag whose contents are the marshalled
empty map, mark it as the default, and return the assembled record. -/
def BagsAPI.createDefaultBag (s : DBState) (username : String) :
    Except String (BagRecord × DBState) :=
  match BagsAPI.AddBag s username (.valid (.obj [])) with
  | .error e => .error e
  | .ok (newBagID, s1) =>
    match BagsAPI.SetDefaultBag s1 username newBagID with
    | .error e => .error e
    | .ok s2 =>
      match BagsAPI.GetUserID s2 username with
      | .error e => .error e
      | .ok uid => .ok (⟨newBagID, [], uid⟩, s2)

/-- Go `BagsAPI.GetDefaultBag`: consult `HasDefaultBag` (propagating its error);
without a default, lazily create one; otherwise run the three-way join
`bags JOIN default_bags ON bags.id = default_bags.bag_id JOIN users ON
default_bags.user_id = users.id WHERE users.username = $1` and decode the
row (no-rows error when the marked bag does not exist). -/
def BagsAPI.GetDefaultBag (s : DBState) (username : String) :
    Except String (BagRecord × DBState) :=
  match BagsAPI.HasDefaultBag s username with
  | .error e => .error e
  | .ok hasDefault =>
    if !hasDefault then BagsAPI.createDefaultBag s username
    else
      match s.bags.filter (fun b => s.default_bags.any
          (fun d => d.bag_id == b.id && joinUser s.users username d.user_id)) with
      | [] => .error "sql: no rows in result set"
      | r :: _ =>
        match unmarshalMap r.contents with
        | .error e => .error e
        | .ok c => .ok (⟨r.id, c, r.user_id⟩, s)

/-- Go `BagsAPI.DeleteDefaultBag`: fetch the default bag (propagating any
error) and delete that `bags` row.  The `default_bags` marker row is left in
place. -/
def BagsAPI.DeleteDefaultBag (s : DBState) (username : String) : Except String DBState :=
  match BagsAPI.GetDefaultBag s username with
  | .error e => .error e
  | .ok (defaultBag, s1) => BagsAPI.DeleteBag s1 username defaultBag.ID

/-- Observable store operations issued by the bags handlers, recorded so the
control flow of the handlers after a failed username validation can be stated. -/
inductive StoreCall where
  | hasBags (username : String)
  | hasBag (username : String) (bagID : Nat)
  | getBags (username : String)
  | getBag (username : String) (bagID : Nat)
  | getDefaultBag (username : String)
  | addBag (username : String) (contents : JsonText)

/-- Go `BagsApp.getUser`: extract the username path parameter, append the
iplant suffix, and check existence; errors carry the HTTP status and message
the caller writes. -/
def BagsApp.getUser (s : DBState) (varsUsername : Option String) :
    Except (Nat × String) String :=
  match varsUsername with
  | none => .error (400, "missing username in the URL")
  | some username =>
    let username := AddUsernameSuffix username
    if !(queries.IsUser s username) then
      .error (404, "user " ++ username ++ " does not exist")
    else .ok username

/-- The shared prologue of the bags handlers that lack a `return` after a
failed `getUser` (`GetBag`, `GetDefaultBag`, `AddBag`, `HasBags`): the error
response is written but the handler continues with the zero-value username
`""`.  (`GetBags` is different: there the source does return early.) -/
def bagsPrologue (s : DBState) (varsUsername : Option String) (w : RespWriter) :
    String × RespWriter :=
  match BagsApp.getUser s varsUsername with
  | .ok u => (u, w)
  | .error e => ("", httpError w e.2 e.1)

/-- Go `BagsApp.GetBags`.  Unlike the other bags handlers, a failed
`getUser` here is followed by `return` (src lines 97-100): the error
response is the entire response and no store call is issued. -/
def BagsApp.GetBags (s : DBState) (varsUsername : Option String) (w : RespWriter) :
    RespWriter × List StoreCall :=
  match BagsApp.getUser s varsUsername with
  | .error e => (httpError w e.2 e.1, [])
  | .ok username =>
    match BagsAPI.GetBags s username with
    | .error e =>
        (httpError w ("error getting bags for " ++ username ++ ": " ++ e) 500,
         [.getBags username])
    | .ok bags =>
        (w.write (.bagsJson (bags.map (fun b => (b.ID, b.Contents, b.UserID)))),
         [.getBags username])

/-- Go `BagsApp.GetBag`. -/
def BagsApp.GetBag (s : DBState) (varsUsername : Option String)
    (varsBagID : Option Nat) (w : RespWriter) : RespWriter × List StoreCall :=
  let uw := bagsPrologue s varsUsername w
  match varsBagID with
  | none => (badRequest uw.2 "missing bagID in the URL", [])
  | some bagID =>
    match BagsAPI.HasBag s uw.1 bagID with
    | .error e =>
        (badRequest uw.2 ("error checking database for bag " ++ toString bagID
          ++ " for " ++ uw.1 ++ ": " ++ e), [.hasBag uw.1 bagID])
    | .ok false =>
        (httpError uw.2 ("bag " ++ toString bagID ++ " not found for user " ++ uw.1) 404,
         [.hasBag uw.1 bagID])
    | .ok true =>
      match BagsAPI.GetBag s uw.1 bagID with
      | .error e =>
          (httpError uw.2 ("error getting bags for " ++ uw.1 ++ ": " ++ e) 500,
           [.hasBag uw.1 bagID, .getBag uw.1 bagID])
      | .ok bag =>
          (uw.2.write (.bagJson bag.ID bag.Contents bag.UserID),
           [.hasBag uw.1 bagID, .getBag uw.1 bagID])

/-- Go `BagsApp.GetDefaultBag`. -/
def BagsApp.GetDefaultBag (s : DBState) (varsUsername : Option String) (w : RespWriter) :
    RespWriter × DBState × List StoreCall :=
  let uw := bagsPrologue s varsUsername w
  match BagsAPI.GetDefaultBag s uw.1 with
  | .error e =>
      (httpError uw.2 ("error getting default bag for " ++ uw.1 ++ ": " ++ e) 500,
       s, [.getDefaultBag uw.1])
  | .ok (bag, s2) =>
      (uw.2.write (.bagJson bag.ID bag.Contents bag.UserID), s2, [.getDefaultBag uw.1])

/-- Go `BagsApp.AddBag` (`PUT /bags/\x7busername\x7d`): decode the body into a
`BagRecord` (status 400 on failure), then store the raw body text. -/
def BagsApp.AddBag (s : DBState) (varsUsername : Option String) (body : JsonText)
    (w : RespWriter) : RespWriter × DBState × List StoreCall :=
  let uw := bagsPrologue s varsUsername w
  match unmarshalBagRecord body with
  | .error e => (badRequest uw.2 ("failed to JSON decode body: " ++ e), s, [])
  | .ok _ =>
    match BagsAPI.AddBag s uw.1 body with
    | .error e =>
        (errored uw.2 ("failed to add bag for " ++ uw.1 ++ ": " ++ e), s,
         [.addBag uw.1 body])
    | .ok (bagID, s2) =>
        (uw.2.write (.idJson bagID), s2, [.addBag uw.1 body])

/-- Go `BagsApp.HasBags` (`HEAD /bags/\x7busername\x7d`): 200/404 with no
body. -/
def BagsApp.HasBags (s : DBState) (varsUsername : Option String) (w : RespWriter) :
    RespWriter × List StoreCall :=
  let uw := bagsPrologue s varsUsername w
  match BagsAPI.HasBags s uw.1 with
  | .error e =>
      (errored uw.2 ("error looking for bags for " ++ uw.1 ++ ": " ++ e), [.hasBags uw.1])
  | .ok hasBags =>
      (if !hasBags then uw.2.writeHeader 404 else uw.2.writeHeader 200, [.hasBags uw.1])

/-- Observer: the committed status of a handler outcome (`none` when the
handler panicked or never wrote). -/
def GoResult.statusOf : GoResult RespWriter → Option Nat
  | .ok w => w.status
  | .panicked => none

-- -------- CONCRETE FIXTURES --------

/-- A database with no users and no records. -/
def emptyDB : DBState := ⟨[], [], [], [], [], [], 0⟩

/-- A database with the single user `test-user` and no records. -/
def oneUserDB : DBState := ⟨[("test-user", 1)], [], [], [], [], [], 0⟩

/-- A database with `test-user` both bare and in suffixed form, no records. -/
def twoUserDB : DBState :=
  ⟨[("test-user", 1), ("test-user@iplantcollaborative.org", 2)], [], [], [], [], [], 0⟩

/-- A database where `test-user` has a stored preferences payload whose
`"preferences"` key holds the number 1 rather than an object. -/
def panickyPrefsDB : DBState :=
  ⟨[("test-user", 1)], [⟨5, 1, .valid (.obj [("preferences", .num 1)])⟩], [], [], [], [], 6⟩

/-- A database where the suffixed user owns bag 10, marked as their default
bag. -/
def defaultBagDB : DBState :=
  ⟨[("u@iplantcollaborative.org", 1)], [], [], [], [⟨10, 1, .valid (.obj [])⟩], [⟨1, 10⟩], 11⟩

/-- A database with one suffixed user, no bags and no default-bag marker. -/
def noDefaultBagDB : DBState :=
  ⟨[("test-user@iplantcollaborative.org", 1)], [], [], [], [], [], 0⟩

/-- A database containing only the suffixed user
`alice@iplantcollaborative.org`. -/
def suffixOnlyDB : DBState :=
  ⟨[("alice@iplantcollaborative.org", 7)], [], [], [], [], [], 0⟩

-- -------- HELPER LEMMAS --------

/-- If a username matches no `users` row, the per-resource join is empty for
every owner id. -/
theorem joinUser_eq_false (users : List (String × Nat)) (u : String) (x : Nat)
    (h : users.any (fun r => r.1 == u) = false) : joinUser users u x = false := by
  rw [joinUser]
  by_contra hne
  have htrue : users.any (fun r => x == r.2 && r.1 == u) = true := by
    revert hne
    cases users.any (fun r => x == r.2 && r.1 == u) <;> simp
  obtain ⟨r, hr, hcond⟩ := List.any_eq_true.mp htrue
  rw [Bool.and_eq_true] at hcond
  have : users.any (fun r => r.1 == u) = true :=
    List.any_eq_true.mpr ⟨r, hr, hcond.2⟩
  rw [h] at this
  cases this

/-- Over a single-row `users` table, the join test reduces to an id
comparison. -/
theorem joinUser_single (u : String) (uid x : Nat) :
    joinUser [(u, uid)] u x = (x == uid) := by
  simp [joinUser]

/-- Updating rows in place commutes with filtering by owner, because the
update preserves the owner id. -/
theorem prefs_filter_map_update (l : List PrefRow) (uid : Nat) (body : JsonText) :
    (l.map (fun p => if p.user_id == uid then (⟨p.id, p.user_id, body⟩ : PrefRow) else p)).filter
        (fun p => p.user_id == uid)
      = (l.filter (fun p => p.user_id == uid)).map
          (fun p => (⟨p.id, p.user_id, body⟩ : PrefRow)) := by
  induction l with
  | nil => rfl
  | cons a t ih =>
    cases h : a.user_id == uid with
    | true =>
        simp only [List.map_cons, List.filter_cons, h, eq_self_iff_true, if_true, ih]
    | false =>
        simp only [List.map_cons, List.filter_cons, h, Bool.false_eq_true, if_false, ih]

/-- Fetching after a store of the round-trip body: whichever row order the
store produced, a head row holding the body yields the wrapped response for
`wrap = true` and the bare response for `wrap = false`. -/
theorem getPrefs_responses (S : DBState) (u : String) (i uidv : Nat)
    (rest : List UserPreferencesRecord)
    (hget : PrefsDB.getPreferences S u =
      ⟨i, .valid (.obj [("one", .str "two")]), uidv⟩ :: rest) :
    getUserPreferencesForRequest S u true =
      .ok (.ok (.jsonVal (.obj [("preferences", .obj [("one", .str "two")])])))
    ∧ getUserPreferencesForRequest S u false =
      .ok (.ok (.jsonVal (.obj [("one", .str "two")]))) := by
  constructor <;> simp [getUserPreferencesForRequest, hget, convertPrefs, unmarshalMap, lookupKey]

-- -------- CLAIM THEOREMS --------

/-- C1 (counterexample): for the sessions resource, a GET for a username
that does not resolve is answered with status 400 and the plain-text body
`User nouser does not exist` — not with status 404 and the JSON body naming
the user, as the claim states for every resource type. -/
theorem claim_C1_counterexample :
    UserSessionsApp.GetRequest emptyDB (some "nouser") RespWriter.empty =
      .ok ⟨some 400, [.text "User nouser does not exist"]⟩
    ∧ GoResult.statusOf (UserSessionsApp.GetRequest emptyDB (some "nouser") RespWriter.empty)
        ≠ some 404 := by
  exact ⟨rfl, by decide⟩

/-- C2 (counterexample): for the searches resource, a PUT/POST whose body is
not valid JSON is answered with status 400 (`badRequest`), not 500 as the
claim states for every resource type; the parse error message is echoed
after `Error parsing body: `. -/
theorem claim_C2_counterexample :
    SavedSearchesApp.PostRequest oneUserDB (some "test-user")
        (.malformed "unexpected token") RespWriter.empty =
      (⟨some 400, [.text ("Error parsing body: " ++ "unexpected token")]⟩, oneUserDB)
    ∧ (SavedSearchesApp.PostRequest oneUserDB (some "test-user")
        (.malformed "unexpected token") RespWriter.empty).1.status ≠ some 500 := by
  exact ⟨rfl, by decide⟩

/-- C3: the envelope converters are idempotent.  For any parsed object that
already contains the envelope key, converting with `wrap = true` returns it
unchanged; for any parsed object that does not contain the envelope key,
converting with `wrap = false` returns it unchanged — for `convertPrefs`
(key `"preferences"`) and `convertSessions` (key `"session"`) alike. -/
theorem claim_C3_envelope_idempotence (i uidv : Nat)
    (m1 m2 m3 m4 : List (String × JValue))
    (h1 : (lookupKey m1 "preferences").isSome = true)
    (h2 : lookupKey m2 "preferences" = none)
    (h3 : (lookupKey m3 "session").isSome = true)
    (h4 : lookupKey m4 "session" = none) :
    convertPrefs ⟨i, .valid (.obj m1), uidv⟩ true = .ok m1
    ∧ convertPrefs ⟨i, .valid (.obj m2), uidv⟩ false = .ok m2
    ∧ convertSessions ⟨i, .valid (.obj m3), uidv⟩ true = .ok m3
    ∧ convertSessions ⟨i, .valid (.obj m4), uidv⟩ false = .ok m4 := by
  refine ⟨?_, ?_, ?_, ?_⟩
  · obtain ⟨v, hv⟩ := Option.isSome_iff_exists.mp h1
    simp [convertPrefs, unmarshalMap, hv]
  · simp [convertPrefs, unmarshalMap, h2]
  · obtain ⟨v, hv⟩ := Option.isSome_iff_exists.mp h3
    simp [convertSessions, unmarshalMap, hv]
  · simp [convertSessions, unmarshalMap, h4]

/-- C3 (witness): the idempotence theorem applied to the examples of the spec
`\x7b"preferences": \x7b"a": 1\x7d\x7d` (wrapped) and `\x7b"a": 1\x7d`
(bare), and their sessions counterparts. -/
theorem claim_C3_envelope_idempotence_witness :
    convertPrefs ⟨0, .valid (.obj [("preferences", .obj [("a", .num 1)])]), 0⟩ true =
      .ok [("preferences", .obj [("a", .num 1)])]
    ∧ convertPrefs ⟨0, .valid (.obj [("a", .num 1)]), 0⟩ false = .ok [("a", .num 1)]
    ∧ convertSessions ⟨0, .valid (.obj [("session", .obj [("a", .num 1)])]), 0⟩ true =
      .ok [("session", .obj [("a", .num 1)])]
    ∧ convertSessions ⟨0, .valid (.obj [("a", .num 1)]), 0⟩ false = .ok [("a", .num 1)] := by
  exact claim_C3_envelope_idempotence 0 0
    [("preferences", .obj [("a", .num 1)])] [("a", .num 1)]
    [("session", .obj [("a", .num 1)])] [("a", .num 1)]
    rfl rfl rfl rfl

/-- C5: evaluating the code at the failing input.  For a user who owns bag 10
marked as their default, `DeleteDefaultBag` does not delete anything and
fails: it first calls `GetDefaultBag`, which consults `HasDefaultBag`, whose
query text is not valid SQL (missing comma in its FROM clause), so the
syntax error of the database is propagated.  `GetDefaultBag` fails the same way,
so the marker is never treated as absent and no default bag is ever lazily
recreated.  (Even with the intended join, `DeleteDefaultBag` removes only
the `bags` row and leaves the `default_bags` marker row in place.) -/
theorem claim_C5_delete_default_bag_fails :
    BagsAPI.DeleteDefaultBag defaultBagDB "u@iplantcollaborative.org" =
      .error hasDefaultBagQueryError
    ∧ BagsAPI.GetDefaultBag defaultBagDB "u@iplantcollaborative.org" =
      .error hasDefaultBagQueryError
    ∧ defaultBagDB.default_bags = [⟨1, 10⟩] := by
  exact ⟨rfl, rfl, rfl⟩

/-- C6: evaluating the code at the failing input.  For a username that does
not resolve, the user-id lookup fails with the no-rows error, yet
`deleteSavedSearches` reports success (`return nil` in the source discards
the lookup error) and leaves the state untouched, contradicting the claim
that the resolution error is always propagated. -/
theorem claim_C6_delete_saved_searches_swallows_error :
    queries.UserID emptyDB "ghost" = .error "sql: no rows in result set"
    ∧ SearchesDB.deleteSavedSearches emptyDB "ghost" = .ok emptyDB := by
  exact ⟨rfl, rfl⟩

/-- C7: evaluating the code at the failing input.  For an existing user with
no default bag, `GetDefaultBag` does not create anything: its first step,
`HasDefaultBag`, always fails because its query text is not valid SQL
(missing comma in the FROM clause), so the handler answers 500 with the
syntax error of the database instead of returning a fresh default bag. -/
theorem claim_C7_get_default_bag_fails :
    BagsAPI.GetDefaultBag noDefaultBagDB "test-user@iplantcollaborative.org" =
      .error hasDefaultBagQueryError
    ∧ BagsApp.GetDefaultBag noDefaultBagDB (some "test-user") RespWriter.empty =
      (⟨some 500, [.text ("error getting default bag for "
          ++ "test-user@iplantcollaborative.org" ++ ": " ++ hasDefaultBagQueryError)]⟩,
       noDefaultBagDB, [.getDefaultBag "test-user@iplantcollaborative.org"]) := by
  exact ⟨rfl, rfl⟩

/-- C8: the unwrap branch of the converters performs an unchecked type
assertion.  For the stored payload `\x7b"preferences": 1\x7d` converting
with `wrap = false` panics (likewise for sessions with
`\x7b"session": 1\x7d`), and the branch is reachable from a GET request:
the preferences GET handler panics on a database holding that payload for
an existing user. -/
theorem claim_C8_unwrap_type_assertion_panics :
    convertPrefs ⟨5, .valid (.obj [("preferences", .num 1)]), 1⟩ false = .panicked
    ∧ convertSessions ⟨5, .valid (.obj [("session", .num 1)]), 1⟩ false = .panicked
    ∧ UserPreferencesApp.GetRequest panickyPrefsDB (some "test-user") RespWriter.empty =
      .panicked := by
  exact ⟨rfl, rfl, rfl⟩

/-- C1 (amended): for a username that does not resolve, the preferences and
searches GET handlers respond 404 with body `\x7b"user": "<username>"\x7d`;
the sessions GET handler responds 400 with the plain text `User <username>
does not exist`; and the bags GET listing handler responds 404 with the
plain text `user <username+suffix> does not exist` as the entire body,
issuing no store call (here the source does return after writing the
error). -/
theorem claim_C1_amended (s : DBState) (u : String)
    (hmiss : queries.IsUser s u = false)
    (hmissb : queries.IsUser s (AddUsernameSuffix u) = false) :
    UserPreferencesApp.GetRequest s (some u) RespWriter.empty =
      .ok ⟨some 404, [.jsonVal (.obj [("user", .str u)])]⟩
    ∧ SavedSearchesApp.GetRequest s (some u) RespWriter.empty =
      ⟨some 404, [.jsonVal (.obj [("user", .str u)])]⟩
    ∧ UserSessionsApp.GetRequest s (some u) RespWriter.empty =
      .ok ⟨some 400, [.text ("User " ++ u ++ " does not exist")]⟩
    ∧ BagsApp.GetBags s (some u) RespWriter.empty =
      (⟨some 404, [.text ("user " ++ AddUsernameSuffix u ++ " does not exist")]⟩, []) := by
  have hgu : BagsApp.getUser s (some u) =
      .error (404, "user " ++ AddUsernameSuffix u ++ " does not exist") := by
    simp [BagsApp.getUser, hmissb]
  refine ⟨?_, ?_, ?_, ?_⟩
  · simp [UserPreferencesApp.GetRequest, PrefsDB.isUser, hmiss, handleNonUser,
      RespWriter.writeHeader, RespWriter.write, RespWriter.empty]
  · simp [SavedSearchesApp.GetRequest, SearchesDB.isUser, hmiss, handleNonUser,
      RespWriter.writeHeader, RespWriter.write, RespWriter.empty]
  · simp [UserSessionsApp.GetRequest, SessionsDB.isUser, hmiss,
      badRequest, httpError, RespWriter.writeHeader, RespWriter.write, RespWriter.empty]
  · rw [BagsApp.GetBags, hgu]
    simp [httpError, RespWriter.writeHeader, RespWriter.write, RespWriter.empty]

/-- C1 (amended, witness): the amended statement at the empty database and
the username `nouser`. -/
theorem claim_C1_amended_witness :
    UserPreferencesApp.GetRequest emptyDB (some "nouser") RespWriter.empty =
      .ok ⟨some 404, [.jsonVal (.obj [("user", .str "nouser")])]⟩
    ∧ SavedSearchesApp.GetRequest emptyDB (some "nouser") RespWriter.empty =
      ⟨some 404, [.jsonVal (.obj [("user", .str "nouser")])]⟩
    ∧ UserSessionsApp.GetRequest emptyDB (some "nouser") RespWriter.empty =
      .ok ⟨some 400, [.text ("User " ++ "nouser" ++ " does not exist")]⟩
    ∧ BagsApp.GetBags emptyDB (some "nouser") RespWriter.empty =
      (⟨some 404, [.text ("user " ++ AddUsernameSuffix "nouser" ++ " does not exist")]⟩,
       []) := by
  exact claim_C1_amended emptyDB "nouser" rfl rfl

/-- C2 (amended): for a PUT/POST whose body is not valid JSON, the
preferences and sessions handlers (for an existing user) respond 500 with
`Error parsing request body: <msg>`; the searches handler responds 400 with
`Error parsing body: <msg>` for every username (it parses before the user
check); and the bags AddBag handler (for an existing suffixed user) responds
400 with `failed to JSON decode body: <msg>`. -/
theorem claim_C2_amended (s : DBState) (u ub msg : String)
    (hu : queries.IsUser s u = true)
    (hub : queries.IsUser s (AddUsernameSuffix ub) = true) :
    UserPreferencesApp.PostRequest s (some u) (.malformed msg) RespWriter.empty =
      .ok (⟨some 500, [.text ("Error parsing request body: " ++ msg)]⟩, s)
    ∧ UserSessionsApp.PostRequest s (some u) (.malformed msg) RespWriter.empty =
      .ok (⟨some 500, [.text ("Error parsing request body: " ++ msg)]⟩, s)
    ∧ (∀ v : String,
        SavedSearchesApp.PostRequest s (some v) (.malformed msg) RespWriter.empty =
          (⟨some 400, [.text ("Error parsing body: " ++ msg)]⟩, s))
    ∧ BagsApp.AddBag s (some ub) (.malformed msg) RespWriter.empty =
      (⟨some 400, [.text ("failed to JSON decode body: " ++ msg)]⟩, s, []) := by
  have hpro : bagsPrologue s (some ub) RespWriter.empty =
      (AddUsernameSuffix ub, RespWriter.empty) := by
    simp [bagsPrologue, BagsApp.getUser, hub]
  refine ⟨?_, ?_, ?_, ?_⟩
  · simp [UserPreferencesApp.PostRequest, PrefsDB.isUser, hu, unmarshalMap,
      errored, httpError, RespWriter.writeHeader, RespWriter.write, RespWriter.empty]
  · simp [UserSessionsApp.PostRequest, SessionsDB.isUser, hu, unmarshalMap,
      errored, httpError, RespWriter.writeHeader, RespWriter.write, RespWriter.empty]
  · intro v
    simp [SavedSearchesApp.PostRequest, unmarshalAny,
      badRequest, httpError, RespWriter.writeHeader, RespWriter.write, RespWriter.empty]
  · rw [BagsApp.AddBag, hpro]
    simp [unmarshalBagRecord, badRequest, httpError,
      RespWriter.writeHeader, RespWriter.write, RespWriter.empty]

/-- C2 (amended, witness): the amended statement at a database containing
`test-user` bare and suffixed, with the parse error message `unexpected
end`. -/
theorem claim_C2_amended_witness :
    UserPreferencesApp.PostRequest twoUserDB (some "test-user")
        (.malformed "unexpected end") RespWriter.empty =
      .ok (⟨some 500, [.text ("Error parsing request body: " ++ "unexpected end")]⟩, twoUserDB)
    ∧ UserSessionsApp.PostRequest twoUserDB (some "test-user")
        (.malformed "unexpected end") RespWriter.empty =
      .ok (⟨some 500, [.text ("Error parsing request body: " ++ "unexpected end")]⟩, twoUserDB)
    ∧ (∀ v : String,
        SavedSearchesApp.PostRequest twoUserDB (some v)
            (.malformed "unexpected end") RespWriter.empty =
          (⟨some 400, [.text ("Error parsing body: " ++ "unexpected end")]⟩, twoUserDB))
    ∧ BagsApp.AddBag twoUserDB (some "test-user")
        (.malformed "unexpected end") RespWriter.empty =
      (⟨some 400, [.text ("failed to JSON decode body: " ++ "unexpected end")]⟩,
       twoUserDB, []) := by
  exact claim_C2_amended twoUserDB "test-user" "test-user" "unexpected end" rfl (by decide)

/-- C9: in the bags handlers `GetBag`, `GetDefaultBag`, `AddBag` and
`HasBags`, a failed username validation writes the error response but does
not terminate the request: the handler keeps running and issues the
subsequent store operation with the zero-value username `""`, as the
recorded store-call traces show.  The written 404 response stays first in
the body and its status cannot be overwritten. -/
theorem claim_C9_handlers_continue_after_failed_validation
    (s : DBState) (u : String) (bid : Nat)
    (hmissb : queries.IsUser s (AddUsernameSuffix u) = false)
    (hempty : queries.IsUser s "" = false) :
    BagsApp.GetBag s (some u) (some bid) RespWriter.empty =
      (⟨some 404, [.text ("user " ++ AddUsernameSuffix u ++ " does not exist"),
                   .text ("bag " ++ toString bid ++ " not found for user " ++ "")]⟩,
       [.hasBag "" bid])
    ∧ BagsApp.GetDefaultBag s (some u) RespWriter.empty =
      (⟨some 404, [.text ("user " ++ AddUsernameSuffix u ++ " does not exist"),
                   .text ("error getting default bag for " ++ "" ++ ": "
                          ++ hasDefaultBagQueryError)]⟩,
       s, [.getDefaultBag ""])
    ∧ BagsApp.AddBag s (some u) (.valid (.obj [])) RespWriter.empty =
      (⟨some 404, [.text ("user " ++ AddUsernameSuffix u ++ " does not exist"),
                   .text ("failed to add bag for " ++ "" ++ ": "
                          ++ "sql: no rows in result set")]⟩,
       s, [.addBag "" (.valid (.obj []))])
    ∧ BagsApp.HasBags s (some u) RespWriter.empty =
      (⟨some 404, [.text ("user " ++ AddUsernameSuffix u ++ " does not exist")]⟩,
       [.hasBags ""]) := by
  have hany : s.users.any (fun r => r.1 == "") = false := hempty
  have hjoin : ∀ x, joinUser s.users "" x = false :=
    fun x => joinUser_eq_false s.users "" x hany
  have hpro : bagsPrologue s (some u) RespWriter.empty =
      ("", ⟨some 404, [.text ("user " ++ AddUsernameSuffix u ++ " does not exist")]⟩) := by
    simp [bagsPrologue, BagsApp.getUser, hmissb, httpError, RespWriter.writeHeader,
      RespWriter.write, RespWriter.empty]
  have hfind : s.users.find? (fun r => r.1 == "") = none := by
    rw [List.find?_eq_none]
    intro x hx
    have := List.any_eq_false.mp hany x hx
    simpa using this
  have hUID : queries.UserID s "" = .error "sql: no rows in result set" := by
    rw [queries.UserID, hfind]
  have hbagfilter : s.bags.filter (fun b => joinUser s.users "" b.user_id && b.id == bid) = [] := by
    rw [List.filter_eq_nil_iff]
    intro b _
    simp [hjoin b.user_id]
  have hbagsfilter : s.bags.filter (fun b => joinUser s.users "" b.user_id) = [] := by
    rw [List.filter_eq_nil_iff]
    intro b _
    simp [hjoin b.user_id]
  have hHasBag : BagsAPI.HasBag s "" bid = .ok false := by
    simp [BagsAPI.HasBag, hbagfilter]
  have hHasBags : BagsAPI.HasBags s "" = .ok false := by
    simp [BagsAPI.HasBags, hbagsfilter]
  refine ⟨?_, ?_, ?_, ?_⟩
  · rw [BagsApp.GetBag, hpro]
    simp [hHasBag, httpError, RespWriter.writeHeader, RespWriter.write]
  · rw [BagsApp.GetDefaultBag, hpro]
    simp [BagsAPI.GetDefaultBag, BagsAPI.HasDefaultBag, httpError,
      RespWriter.writeHeader, RespWriter.write]
  · rw [BagsApp.AddBag, hpro]
    simp only [show unmarshalBagRecord (.valid (.obj [])) = .ok () from rfl]
    simp [BagsAPI.AddBag, hUID, errored, httpError,
      RespWriter.writeHeader, RespWriter.write]
  · rw [BagsApp.HasBags, hpro]
    simp [hHasBags, RespWriter.writeHeader]

/-- C9 (witness): the statement at the empty database, username `nouser`,
bag id 3. -/
theorem claim_C9_witness :
    BagsApp.GetBag emptyDB (some "nouser") (some 3) RespWriter.empty =
      (⟨some 404, [.text ("user " ++ AddUsernameSuffix "nouser" ++ " does not exist"),
                   .text ("bag " ++ toString 3 ++ " not found for user " ++ "")]⟩,
       [.hasBag "" 3])
    ∧ BagsApp.GetDefaultBag emptyDB (some "nouser") RespWriter.empty =
      (⟨some 404, [.text ("user " ++ AddUsernameSuffix "nouser" ++ " does not exist"),
                   .text ("error getting default bag for " ++ "" ++ ": "
                          ++ hasDefaultBagQueryError)]⟩,
       emptyDB, [.getDefaultBag ""])
    ∧ BagsApp.AddBag emptyDB (some "nouser") (.valid (.obj [])) RespWriter.empty =
      (⟨some 404, [.text ("user " ++ AddUsernameSuffix "nouser" ++ " does not exist"),
                   .text ("failed to add bag for " ++ "" ++ ": "
                          ++ "sql: no rows in result set")]⟩,
       emptyDB, [.addBag "" (.valid (.obj []))])
    ∧ BagsApp.HasBags emptyDB (some "nouser") RespWriter.empty =
      (⟨some 404, [.text ("user " ++ AddUsernameSuffix "nouser" ++ " does not exist")]⟩,
       [.hasBags ""]) := by
  exact claim_C9_handlers_continue_after_failed_validation emptyDB "nouser" 3 rfl rfl

/-- C10: every bags endpoint funnels through `BagsApp.getUser`, which
normalizes the URL username by appending `@iplantcollaborative.org` when it
is not already present (and leaves an already-suffixed username unchanged)
before the user-existence check, and the store operations then receive the
suffixed name; the preferences, sessions and searches handlers perform no
such normalization — they consult the user store with the raw username, so a
bare username whose suffixed form exists is still treated as a non-user. -/
theorem claim_C10_bags_suffix_normalization (s : DBState) (u v : String)
    (hnos : strings.HasSuffix u IplantSuffix = false)
    (hsuf : strings.HasSuffix v IplantSuffix = true)
    (hraw : queries.IsUser s u = false)
    (hyes : queries.IsUser s (u ++ IplantSuffix) = true) :
    AddUsernameSuffix u = u ++ IplantSuffix
    ∧ AddUsernameSuffix v = v
    ∧ BagsApp.getUser s (some u) = .ok (u ++ IplantSuffix)
    ∧ (BagsApp.HasBags s (some u) RespWriter.empty).2 = [.hasBags (u ++ IplantSuffix)]
    ∧ UserPreferencesApp.GetRequest s (some u) RespWriter.empty =
      .ok ⟨some 404, [.jsonVal (.obj [("user", .str u)])]⟩
    ∧ UserSessionsApp.GetRequest s (some u) RespWriter.empty =
      .ok ⟨some 400, [.text ("User " ++ u ++ " does not exist")]⟩
    ∧ SavedSearchesApp.GetRequest s (some u) RespWriter.empty =
      ⟨some 404, [.jsonVal (.obj [("user", .str u)])]⟩ := by
  have haddu : AddUsernameSuffix u = u ++ IplantSuffix := by
    rw [AddUsernameSuffix, hnos]
    rfl
  have haddv : AddUsernameSuffix v = v := by
    rw [AddUsernameSuffix, hsuf]
    rfl
  have hget : BagsApp.getUser s (some u) = .ok (u ++ IplantSuffix) := by
    simp [BagsApp.getUser, haddu, hyes]
  refine ⟨haddu, haddv, hget, ?_, ?_, ?_, ?_⟩
  · rw [BagsApp.HasBags, bagsPrologue, hget]
    simp [BagsAPI.HasBags]
  · simp [UserPreferencesApp.GetRequest, PrefsDB.isUser, hraw, handleNonUser,
      RespWriter.writeHeader, RespWriter.write, RespWriter.empty]
  · simp [UserSessionsApp.GetRequest, SessionsDB.isUser, hraw,
      badRequest, httpError, RespWriter.writeHeader, RespWriter.write, RespWriter.empty]
  · simp [SavedSearchesApp.GetRequest, SearchesDB.isUser, hraw, handleNonUser,
      RespWriter.writeHeader, RespWriter.write, RespWriter.empty]

/-- C10 (witness): the statement at a database containing only the suffixed
user `alice@iplantcollaborative.org`, with bare username `alice` and
already-suffixed username `bob@iplantcollaborative.org`. -/
theorem claim_C10_witness :
    AddUsernameSuffix "alice" = "alice" ++ IplantSuffix
    ∧ AddUsernameSuffix "bob@iplantcollaborative.org" = "bob@iplantcollaborative.org"
    ∧ BagsApp.getUser suffixOnlyDB (some "alice") = .ok ("alice" ++ IplantSuffix)
    ∧ (BagsApp.HasBags suffixOnlyDB (some "alice") RespWriter.empty).2 =
      [.hasBags ("alice" ++ IplantSuffix)]
    ∧ UserPreferencesApp.GetRequest suffixOnlyDB (some "alice") RespWriter.empty =
      .ok ⟨some 404, [.jsonVal (.obj [("user", .str "alice")])]⟩
    ∧ UserSessionsApp.GetRequest suffixOnlyDB (some "alice") RespWriter.empty =
      .ok ⟨some 400, [.text ("User " ++ "alice" ++ " does not exist")]⟩
    ∧ SavedSearchesApp.GetRequest suffixOnlyDB (some "alice") RespWriter.empty =
      ⟨some 404, [.jsonVal (.obj [("user", .str "alice")])]⟩ := by
  exact claim_C10_bags_suffix_normalization suffixOnlyDB "alice" "bob@iplantcollaborative.org"
    (by decide) (by decide) (by decide) (by decide)

/-- C4: write-then-read round-trip on preferences.  Over any database whose
user table holds exactly the one user (pre-existing preference rows
arbitrary, so both the insert and the update path are covered), a PUT/POST
with body `\x7b"one":"two"\x7d` succeeds and answers with the wrapped form
`\x7b"preferences":\x7b"one":"two"\x7d\x7d`, and a subsequent GET answers
with exactly `\x7b"one":"two"\x7d`. -/
theorem claim_C4_prefs_roundtrip (s : DBState) (u : String) (uid : Nat)
    (husers : s.users = [(u, uid)]) :
    ∃ s2 : DBState,
      UserPreferencesApp.PostRequest s (some u)
          (.valid (.obj [("one", .str "two")])) RespWriter.empty =
        .ok (⟨some 200, [.jsonVal (.obj [("preferences", .obj [("one", .str "two")])])]⟩, s2)
      ∧ UserPreferencesApp.GetRequest s2 (some u) RespWriter.empty =
        .ok ⟨some 200, [.jsonVal (.obj [("one", .str "two")])]⟩ := by
  obtain ⟨us, prefs, ses, sea, bag, dbag, nid⟩ := s
  replace husers : us = [(u, uid)] := husers
  subst husers
  have hIs : ∀ (p : List PrefRow) (n : Nat),
      queries.IsUser ⟨[(u, uid)], p, ses, sea, bag, dbag, n⟩ u = true := by
    intro p n
    simp [queries.IsUser]
  have hUID : queries.UserID ⟨[(u, uid)], prefs, ses, sea, bag, dbag, nid⟩ u = .ok uid := by
    simp [queries.UserID, List.find?]
  have hP : (fun p : PrefRow => joinUser [(u, uid)] u p.user_id)
      = (fun p : PrefRow => p.user_id == uid) :=
    funext fun p => joinUser_single u uid p.user_id
  cases hfil : prefs.filter (fun p => p.user_id == uid) with
  | nil =>
    refine ⟨⟨[(u, uid)], prefs ++ [⟨nid, uid, .valid (.obj [("one", .str "two")])⟩],
      ses, sea, bag, dbag, nid + 1⟩, ?_, ?_⟩
    · have hget : PrefsDB.getPreferences
          ⟨[(u, uid)], prefs ++ [⟨nid, uid, .valid (.obj [("one", .str "two")])⟩],
            ses, sea, bag, dbag, nid + 1⟩ u
          = [⟨nid, .valid (.obj [("one", .str "two")]), uid⟩] := by
        simp only [PrefsDB.getPreferences]
        rw [hP]
        simp [List.filter_append, hfil]
      obtain ⟨hwrap, _⟩ := getPrefs_responses _ u nid uid [] hget
      simp only [UserPreferencesApp.PostRequest, PrefsDB.isUser, hIs, Bool.not_true,
        Bool.false_eq_true, if_false, PrefsDB.hasPreferences, hP, hfil]
      simp only [List.length_nil, Nat.lt_irrefl, decide_False, Bool.not_false,
        eq_self_iff_true, if_true, PrefsDB.insertPreferences, hUID, hwrap]
      rfl
    · have hget : PrefsDB.getPreferences
          ⟨[(u, uid)], prefs ++ [⟨nid, uid, .valid (.obj [("one", .str "two")])⟩],
            ses, sea, bag, dbag, nid + 1⟩ u
          = [⟨nid, .valid (.obj [("one", .str "two")]), uid⟩] := by
        simp only [PrefsDB.getPreferences]
        rw [hP]
        simp [List.filter_append, hfil]
      obtain ⟨_, hunwrap⟩ := getPrefs_responses _ u nid uid [] hget
      simp only [UserPreferencesApp.GetRequest, PrefsDB.isUser, hIs, Bool.not_true,
        Bool.false_eq_true, if_false, hunwrap]
      rfl
  | cons q t =>
    have hq : (q.user_id == uid) = true := by
      have hmem : q ∈ prefs.filter (fun p => p.user_id == uid) := by
        rw [hfil]
        exact List.mem_cons_self q t
      exact (List.mem_filter.mp hmem).2
    refine ⟨⟨[(u, uid)],
      prefs.map (fun p => if p.user_id == uid
        then ⟨p.id, p.user_id, .valid (.obj [("one", .str "two")])⟩ else p),
      ses, sea, bag, dbag, nid⟩, ?_, ?_⟩
    · have hget : PrefsDB.getPreferences
          ⟨[(u, uid)],
            prefs.map (fun p => if p.user_id == uid
              then ⟨p.id, p.user_id, .valid (.obj [("one", .str "two")])⟩ else p),
            ses, sea, bag, dbag, nid⟩ u
          = ⟨q.id, .valid (.obj [("one", .str "two")]), q.user_id⟩ ::
            ((t.map (fun p => (⟨p.id, p.user_id,
                .valid (.obj [("one", .str "two")])⟩ : PrefRow))).map
              (fun p => (⟨p.id, p.preferences, p.user_id⟩ : UserPreferencesRecord))) := by
        simp only [PrefsDB.getPreferences]
        rw [hP, prefs_filter_map_update, hfil]
        simp
      obtain ⟨hwrap, _⟩ := getPrefs_responses _ u q.id q.user_id _ hget
      simp only [UserPreferencesApp.PostRequest, PrefsDB.isUser, hIs, Bool.not_true,
        Bool.false_eq_true, if_false, PrefsDB.hasPreferences, hP, hfil]
      have hlen : decide (0 < (q :: t).length) = true := by simp
      simp only [hlen, Bool.not_true, Bool.false_eq_true, if_false,
        PrefsDB.updatePreferences, hUID, hwrap]
      rfl
    · have hget : PrefsDB.getPreferences
          ⟨[(u, uid)],
            prefs.map (fun p => if p.user_id == uid
              then ⟨p.id, p.user_id, .valid (.obj [("one", .str "two")])⟩ else p),
            ses, sea, bag, dbag, nid⟩ u
          = ⟨q.id, .valid (.obj [("one", .str "two")]), q.user_id⟩ ::
            ((t.map (fun p => (⟨p.id, p.user_id,
                .valid (.obj [("one", .str "two")])⟩ : PrefRow))).map
              (fun p => (⟨p.id, p.preferences, p.user_id⟩ : UserPreferencesRecord))) := by
        simp only [PrefsDB.getPreferences]
        rw [hP, prefs_filter_map_update, hfil]
        simp
      obtain ⟨_, hunwrap⟩ := getPrefs_responses _ u q.id q.user_id _ hget
      simp only [UserPreferencesApp.GetRequest, PrefsDB.isUser, hIs, Bool.not_true,
        Bool.false_eq_true, if_false, hunwrap]
      rfl

/-- C4 (witness): the round trip at the database holding only `test-user`. -/
theorem claim_C4_witness :
    ∃ s2 : DBState,
      UserPreferencesApp.PostRequest oneUserDB (some "test-user")
          (.valid (.obj [("one", .str "two")])) RespWriter.empty =
        .ok (⟨some 200, [.jsonVal (.obj [("preferences", .obj [("one", .str "two")])])]⟩, s2)
      ∧ UserPreferencesApp.GetRequest s2 (some "test-user") RespWriter.empty =
        .ok ⟨some 200, [.jsonVal (.obj [("one", .str "two")])]⟩ := by
  exact claim_C4_prefs_roundtrip oneUserDB "test-user" 1 rfl
